import Mathlib

/-!
Shallow embedding of src/process_reports.py (Medical Report Translation
Pipeline).  Text is modeled as `List Char`; the JSON values returned by the
strict decoder (the model of json.loads) are the inductive `JVal`.  External
effects (document conversion, rasterization, backend responses) are oracle
inputs carried by `DocEnv`; runtime errors that Python would raise at the
modeled call sites are an explicit `Except PyErr` channel.
-/

namespace MedReport

/-- JSON values as produced by the strict JSON decoder (model of json.loads).
Numbers are modeled as integers: the decoder rejects fraction and exponent
forms, and no input under analysis contains them. -/
inductive JVal where
  | jnull : JVal
  | jbool : Bool → JVal
  | jnum : Int → JVal
  | jstr : List Char → JVal
  | jarr : List JVal → JVal
  | jobj : List (List Char × JVal) → JVal

/-- The left brace character, written by code point to keep string literals
free of literal braces. -/
def lbraceC : Char := Char.ofNat 123

/-- The right brace character. -/
def rbraceC : Char := Char.ofNat 125

/-- The backtick character. -/
def backtickC : Char := Char.ofNat 96

/-- JSON insignificant whitespace. -/
def isJsonWs (c : Char) : Bool := c = ' ' || c = '\t' || c = '\n' || c = '\r'

/-- Drop leading JSON whitespace. -/
def skipWs : List Char → List Char
  | [] => []
  | c :: t => if isJsonWs c then skipWs t else c :: t

/-- Boolean test that `pat` is a leading segment of the second list. -/
def startsW : List Char → List Char → Bool
  | [], _ => true
  | _ :: _, [] => false
  | p :: ps, c :: cs => decide (p = c) && startsW ps cs

/-- Python dict insertion as performed by the JSON decoder on object members:
an existing key keeps its position and gets the new value, a new key is
appended. -/
def insertKey (acc : List (List Char × JVal)) (k : List Char) (v : JVal) :
    List (List Char × JVal) :=
  match acc with
  | [] => [(k, v)]
  | (k0, v0) :: t => if k0 = k then (k0, v) :: t else (k0, v0) :: insertKey t k v

/-- Key lookup in a decoded JSON object. -/
def lookupKey (fields : List (List Char × JVal)) (k : List Char) : Option JVal :=
  match fields with
  | [] => none
  | (k0, v0) :: t => if k0 = k then some v0 else lookupKey t k

/-- Value of a hexadecimal digit. -/
def hexVal (c : Char) : Option Nat :=
  if c.isDigit then some (c.toNat - 48)
  else if 'a' ≤ c ∧ c ≤ 'f' then some (c.toNat - 87)
  else if 'A' ≤ c ∧ c ≤ 'F' then some (c.toNat - 55)
  else none

/-- JSON string escape characters. -/
def escChar (e : Char) : Option Char :=
  if e = '"' then some '"'
  else if e = '\\' then some '\\'
  else if e = '/' then some '/'
  else if e = 'n' then some '\n'
  else if e = 't' then some '\t'
  else if e = 'r' then some '\r'
  else if e = 'b' then some (Char.ofNat 8)
  else if e = 'f' then some (Char.ofNat 12)
  else none

/-- Fueled body of the JSON string literal scanner; the cursor is just past
the opening quote, the result is the decoded content and the remainder past
the closing quote. -/
def parseStrAux : Nat → List Char → Option (List Char × List Char)
  | 0, _ => none
  | _, [] => none
  | Nat.succ fl, c :: t =>
    if c = '"' then some ([], t)
    else if c = '\\' then
      match t with
      | [] => none
      | e :: t2 =>
        if e = 'u' then
          match t2 with
          | h1 :: h2 :: h3 :: h4 :: t3 =>
            match hexVal h1, hexVal h2, hexVal h3, hexVal h4 with
            | some a, some b, some c4, some d =>
              match parseStrAux fl t3 with
              | some (s, r) => some (Char.ofNat (((a * 16 + b) * 16 + c4) * 16 + d) :: s, r)
              | none => none
            | _, _, _, _ => none
          | _ => none
        else
          match escChar e with
          | some ec =>
            match parseStrAux fl t2 with
            | some (s, r) => some (ec :: s, r)
            | none => none
          | none => none
    else if c.toNat < 32 then none
    else
      match parseStrAux fl t with
      | some (s, r) => some (c :: s, r)
      | none => none

/-- JSON string literal scanner. -/
def parseStrLit (l : List Char) : Option (List Char × List Char) :=
  parseStrAux (l.length + 1) l

/-- Digit run to a natural number. -/
def digitsToNat (ds : List Char) : Nat :=
  ds.foldl (fun a c => a * 10 + (c.toNat - 48)) 0

/-- Strict JSON number scanner restricted to integers; fraction and exponent
forms are rejected (model limitation, unused by the analyzed data). -/
def parseNum (l : List Char) : Option (JVal × List Char) :=
  let sgn : Bool × List Char :=
    match l with
    | c :: t => if c = '-' then (true, t) else (false, l)
    | [] => (false, l)
  let ds := sgn.snd.takeWhile Char.isDigit
  let rest := sgn.snd.dropWhile Char.isDigit
  if ds = [] then none
  else if ds.head? = some '0' ∧ ds.length ≠ 1 then none
  else
    let bad : Bool :=
      match rest with
      | c :: _ => c = '.' || c = 'e' || c = 'E'
      | [] => false
    if bad then none
    else some (JVal.jnum (if sgn.fst then -(digitsToNat ds : Int) else (digitsToNat ds : Int)), rest)

mutual

/-- Fueled strict JSON value scanner. -/
def parseValue : Nat → List Char → Option (JVal × List Char)
  | 0, _ => none
  | Nat.succ fl, l =>
    match l with
    | [] => none
    | c :: t =>
      if c = lbraceC then parseObjBody fl (skipWs t)
      else if c = '[' then parseArrBody fl (skipWs t)
      else if c = '"' then
        match parseStrLit t with
        | some (s, r) => some (JVal.jstr s, r)
        | none => none
      else if c = '-' || c.isDigit then parseNum (c :: t)
      else if startsW (("null").toList) (c :: t) then some (JVal.jnull, (c :: t).drop 4)
      else if startsW (("true").toList) (c :: t) then some (JVal.jbool true, (c :: t).drop 4)
      else if startsW (("false").toList) (c :: t) then some (JVal.jbool false, (c :: t).drop 5)
      else none

/-- Object body scanner, cursor just past the opening brace (whitespace
skipped). -/
def parseObjBody : Nat → List Char → Option (JVal × List Char)
  | 0, _ => none
  | Nat.succ fl, l =>
    match l with
    | [] => none
    | c :: _ => if c = rbraceC then some (JVal.jobj [], l.drop 1) else parseMembers fl l []

/-- Object member list scanner. -/
def parseMembers : Nat → List Char → List (List Char × JVal) → Option (JVal × List Char)
  | 0, _, _ => none
  | Nat.succ fl, l, acc =>
    match l with
    | [] => none
    | c :: t =>
      if c = '"' then
        match parseStrLit t with
        | some (k, r1) =>
          match skipWs r1 with
          | c2 :: t2 =>
            if c2 = ':' then
              match parseValue fl (skipWs t2) with
              | some (v, r2) =>
                match skipWs r2 with
                | c3 :: t3 =>
                  if c3 = ',' then parseMembers fl (skipWs t3) (insertKey acc k v)
                  else if c3 = rbraceC then some (JVal.jobj (insertKey acc k v), t3)
                  else none
                | [] => none
              | none => none
            else none
          | [] => none
        | none => none
      else none

/-- Array body scanner, cursor just past the opening bracket (whitespace
skipped). -/
def parseArrBody : Nat → List Char → Option (JVal × List Char)
  | 0, _ => none
  | Nat.succ fl, l =>
    match l with
    | [] => none
    | c :: _ => if c = ']' then some (JVal.jarr [], l.drop 1) else parseItems fl l []

/-- Array item list scanner. -/
def parseItems : Nat → List Char → List JVal → Option (JVal × List Char)
  | 0, _, _ => none
  | Nat.succ fl, l, acc =>
    match parseValue fl l with
    | some (v, r) =>
      match skipWs r with
      | c :: t =>
        if c = ',' then parseItems fl (skipWs t) (acc ++ [v])
        else if c = ']' then some (JVal.jarr (acc ++ [v]), t)
        else none
      | [] => none
    | none => none

end

/-- Model of json.loads: strict parse of the whole input, allowing
surrounding whitespace only. -/
def jsonLoads (l : List Char) : Option JVal :=
  match parseValue (3 * l.length + 3) (skipWs l) with
  | some (v, r) => if skipWs r = [] then some v else none
  | none => none

/-- Scanner of the Python str.replace method: every non-overlapping
occurrence of `pat`, scanning left to right, is replaced by `rep`.  The
first argument counts characters of a just-matched occurrence still to be
consumed without emitting, which keeps the recursion structural on the
scanned list: at a match the head character is consumed by the same step
that emits `rep`, and the remaining pattern length is handed over as the
skip count. -/
def pyRepGo (pat rep : List Char) : Nat → List Char → List Char
  | _, [] => []
  | 0, c :: t =>
    if startsW pat (c :: t) && !pat.isEmpty then rep ++ pyRepGo pat rep (pat.length - 1) t
    else c :: pyRepGo pat rep 0 t
  | Nat.succ k, _ :: t => pyRepGo pat rep k t

/-- Model of the Python str.replace method.  The empty pattern never occurs
in the source (the patterns are the literal "json" and three backticks) and
is mapped to the identity here. -/
def pyReplace (pat rep l : List Char) : List Char := pyRepGo pat rep 0 l

/-- The two replace calls of parse_llm_json_output, lines 113-120 of
src/process_reports.py: text.replace("json", "").replace("```", ""). -/
def stripJson (t : List Char) : List Char :=
  pyReplace (("```").toList) [] (pyReplace (("json").toList) [] t)

/-- Model of parse_llm_json_output (src/process_reports.py lines 113-120):
strip the two substrings, then strict JSON parsing; a decode error returns
None rather than raising. -/
def parse_llm_json_output (t : List Char) : Option JVal :=
  jsonLoads (stripJson t)

/-- Shared tail of extract_structured_ru_data and translate_captions
(lines 148-149 and 162-163): `parse_llm_json_output(response_text) if
response_text else None`; the backend response is an oracle input, `none`
standing for a transport failure (call_text_llm returned None) and the
empty string being falsy in Python. -/
def llmJsonCall : Option (List Char) → Option JVal
  | none => none
  | some t => if t = [] then none else parse_llm_json_output t

/-- Model of extract_structured_ru_data (lines 122-149).  The prompt only
shapes the oracle response, so the function is the response handling alone. -/
def extract_structured_ru_data (resp : Option (List Char)) : Option JVal :=
  llmJsonCall resp

/-- Model of translate_captions (lines 151-163).  The captions mapping and
target language enter only the prompt; the returned value is the parsed
backend response, accepted without any key-set verification. -/
def translate_captions (_captions : JVal) (_targetLanguage : List Char)
    (resp : Option (List Char)) : Option JVal :=
  llmJsonCall resp

/-- Python truthiness of a decoded JSON value. -/
def pyTruthy : JVal → Bool
  | JVal.jnull => false
  | JVal.jbool b => b
  | JVal.jnum n => decide (n ≠ 0)
  | JVal.jstr s => !s.isEmpty
  | JVal.jarr xs => !xs.isEmpty
  | JVal.jobj fs => !fs.isEmpty

/-- Runtime errors raised by the modeled Python expressions. -/
inductive PyErr where
  | typeError : PyErr
  | attributeError : PyErr
  deriving DecidableEq

/-- Boolean substring test. -/
def hasSub (pat : List Char) : List Char → Bool
  | [] => startsW pat []
  | c :: t => startsW pat (c :: t) || hasSub pat t

/-- Whether a decoded JSON element equals the Python string `key`: Python
equality between a str and a non-str value is False. -/
def eqStr (key : List Char) : JVal → Bool
  | JVal.jstr s => decide (s = key)
  | _ => false

/-- Model of the Python expression `key in v`: key membership for a dict,
element membership for a list, substring test for a str, and a TypeError for
the non-container values a decoded JSON can also be. -/
def pyContains (v : JVal) (key : List Char) : Except PyErr Bool :=
  match v with
  | JVal.jobj fs => Except.ok (lookupKey fs key).isSome
  | JVal.jarr xs => Except.ok (xs.any (eqStr key))
  | JVal.jstr s => Except.ok (hasSub key s)
  | _ => Except.error PyErr.typeError

/-- Outcome of one OCR backend call for one page image: either the content
string of a 2xx response (an empty content plays the same role as a null
content, both being falsy at the call site), or a transport or HTTP failure
with the exception text. -/
inductive ApiResult where
  | success : List Char → ApiResult
  | failure : List Char → ApiResult
  deriving DecidableEq

/-- The failure placeholder prefix of ocr_image_with_vision_llm
(src/process_reports.py line 111). -/
def simMark : List Char := ("Simulated OCR text due to API failure: ").toList

/-- Model of ocr_image_with_vision_llm (lines 86-111): the content string on
success, and on a RequestException the placeholder string built from the
exception text - returned, not raised. -/
def ocr_image_with_vision_llm : ApiResult → List Char
  | ApiResult.success content => content
  | ApiResult.failure e => simMark ++ e

/-- The blank line appended after each kept page text. -/
def nl2 : List Char := '\n' :: '\n' :: []

/-- The OCR accumulation loop shared by both branches of main (lines 199-203
and 214-218): `if ocr_text: full_ocr_text += ocr_text + "\n\n"` over the
pages in order. -/
def ocrConcat : List ApiResult → List Char
  | [] => []
  | p :: ps =>
    (if ocr_image_with_vision_llm p = [] then [] else ocr_image_with_vision_llm p ++ nl2)
      ++ ocrConcat ps

/-- A converted PDF, characterized by what the two external collaborators
yield for it: the direct text layer pdf_to_text returns (an extraction
error yields the empty string, line 60), and the rasterized pages, each
represented by the outcome of its OCR backend call (a rasterization error
yields the empty page list, line 48). -/
structure Pdf where
  directText : List Char
  pages : List ApiResult

/-- Per-document oracle environment: the conversion outcome (None models a
docx2pdf failure, line 36) and the backend responses of the three text-model
calls (None models a transport failure of call_text_llm, line 84). -/
structure DocEnv where
  source : List Char
  conv : Option Pdf
  extractResponse : Option (List Char)
  enResponse : Option (List Char)
  kzResponse : Option (List Char)

/-- Observable external calls of the text-resolution stage: one rasterize
event per pdf_to_images call, one ocrCall event per page OCR request. -/
inductive Ev where
  | rasterize : Ev
  | ocrCall : Nat → Ev
  deriving DecidableEq

/-- One ocrCall event per page index, in page order. -/
def ocrEvents (n : Nat) : List Ev := (List.range n).map Ev.ocrCall

/-- Model of the text-resolution branching of main (lines 190-218): forced
OCR rasterizes and runs OCR over every page; otherwise the direct text is
kept as is when its length reaches 50, and below the threshold the OCR
results are appended after it.  `none` is the `continue` taken when no page
image could be produced.  The second component is the trace of external
calls made by the stage. -/
def resolveText : Bool → Pdf → Option (List Char) × List Ev
  | true, pdf =>
    match pdf.pages with
    | [] => (none, [Ev.rasterize])
    | ps => (some (ocrConcat ps), Ev.rasterize :: ocrEvents ps.length)
  | false, pdf =>
    if pdf.directText.length < 50 then
      match pdf.pages with
      | [] => (none, [Ev.rasterize])
      | ps => (some (pdf.directText ++ ocrConcat ps), Ev.rasterize :: ocrEvents ps.length)
    else (some pdf.directText, [])

/-- Whitespace for the Python str.strip default (ASCII part). -/
def isPySpace (c : Char) : Bool :=
  c = ' ' || c = '\t' || c = '\n' || c = '\r' || c = Char.ofNat 11 || c = Char.ofNat 12

/-- Python `not text.strip()`: the text is empty or all whitespace. -/
def pyBlank (l : List Char) : Bool := l.all isPySpace

/-- Text resolution followed by the blank check of line 221: `none` means
the document was skipped before structured extraction. -/
def textStage (forceOcr : Bool) (pdf : Pdf) : Option (List Char) :=
  match (resolveText forceOcr pdf).fst with
  | none => none
  | some t => if pyBlank t then none else some t

/-- The captions key of the structured record. -/
def capKey : List Char := ("captions_ru").toList

/-- Model of lines 226-231 given the parsed extraction response:
`if not structured_data or "captions_ru" not in structured_data: continue`
then `captions_ru = structured_data.get("captions_ru", {})`.  `ok none` is
the skip; the membership test on a truthy non-container raises TypeError,
and `.get` on a truthy container that is not a dict raises AttributeError,
exactly as the Python expressions do. -/
def validateStructured : Option JVal → Except PyErr (Option (List (List Char × JVal) × JVal))
  | none => Except.ok none
  | some v =>
    if pyTruthy v = false then Except.ok none
    else
      match pyContains v capKey with
      | Except.error e => Except.error e
      | Except.ok false => Except.ok none
      | Except.ok true =>
        match v with
        | JVal.jobj fields =>
          Except.ok (some (fields, (lookupKey fields capKey).getD (JVal.jobj [])))
        | _ => Except.error PyErr.attributeError

/-- The "N/A" default of the scalar patient fields (lines 247-250). -/
def naV : JVal := JVal.jstr (("N/A").toList)

/-- Python dict.get with a default. -/
def jget (fields : List (List Char × JVal)) (k : List Char) (d : JVal) : JVal :=
  (lookupKey fields k).getD d

/-- The output unit appended per fully successful document (lines 245-255). -/
structure FinalReport where
  source_file : List Char
  patient_group : JVal
  patient_id : JVal
  age : JVal
  gender : JVal
  captions_ru : JVal
  captions_en : JVal
  captions_kz : JVal

/-- One iteration of the batch loop of main (lines 181-256): `ok none` is a
skip by `continue`, `ok (some r)` appends a final report, `error` is an
uncaught Python exception escaping the loop. -/
def processDoc (forceOcr : Bool) (env : DocEnv) : Except PyErr (Option FinalReport) :=
  match env.conv with
  | none => Except.ok none
  | some pdf =>
    match textStage forceOcr pdf with
    | none => Except.ok none
    | some _fullText =>
      match validateStructured (extract_structured_ru_data env.extractResponse) with
      | Except.error e => Except.error e
      | Except.ok none => Except.ok none
      | Except.ok (some (fields, captionsRu)) =>
        match translate_captions captionsRu (("English").toList) env.enResponse with
        | none => Except.ok none
        | some en =>
          if pyTruthy en = false then Except.ok none
          else
            match translate_captions captionsRu (("Kazakh").toList) env.kzResponse with
            | none => Except.ok none
            | some kz =>
              if pyTruthy kz = false then Except.ok none
              else
                Except.ok (some ⟨env.source,
                  jget fields (("patient_group").toList) naV,
                  jget fields (("patient_id").toList) naV,
                  jget fields (("age").toList) naV,
                  jget fields (("gender").toList) naV,
                  captionsRu, en, kz⟩)

/-- The whole batch loop: successful reports accumulate in input order,
skipped documents leave no entry, and an uncaught exception aborts the
batch (no later document is processed, nothing is written). -/
def runBatch (forceOcr : Bool) : List DocEnv → Except PyErr (List FinalReport)
  | [] => Except.ok []
  | e :: es =>
    match processDoc forceOcr e with
    | Except.error pe => Except.error pe
    | Except.ok none => runBatch forceOcr es
    | Except.ok (some r) =>
      match runBatch forceOcr es with
      | Except.error pe => Except.error pe
      | Except.ok rs => Except.ok (r :: rs)

/-- Key list of a decoded JSON object, in insertion order. -/
def jkeys : JVal → List (List Char)
  | JVal.jobj fs => fs.map Prod.fst
  | _ => []

/-- Observer: the string stored under key `k` when the value is an object
holding a string there, else the empty string.  Used to separate concrete
parse results. -/
def strAt (o : Option JVal) (k : List Char) : List Char :=
  match o with
  | some (JVal.jobj fs) =>
    match lookupKey fs k with
    | some (JVal.jstr s) => s
    | _ => []
  | _ => []

/-- Markdown fencing around a JSON payload, the form the response handler is
meant to remove. -/
def fenceWrap (p : List Char) : List Char :=
  ("```").toList ++ ("json").toList ++ p ++ ("```").toList

/-! Concrete inputs used by witnesses, counterexamples and evaluations. -/

/-- A direct text layer of 62 characters, above the 50-character threshold. -/
def text60 : List Char :=
  ("This direct text layer clearly has well over fifty characters.").toList

/-- A document whose direct extraction is usable; no OCR oracle needed. -/
def goodPdf : Pdf := ⟨text60, []⟩

/-- A well-shaped structured-extraction response. -/
def goodExtractResp : List Char :=
  ("\x7b\"captions_ru\": \x7b\"liver\": \"norm\"\x7d\x7d").toList

/-- A well-shaped translation response. -/
def transResp : List Char := ("\x7b\"liver\": \"ok\"\x7d").toList

def liverKey : List Char := ("liver").toList

def okTxt : List Char := ("ok").toList

def normTxt : List Char := ("norm").toList

def aKey : List Char := ("a").toList

/-- The captions mapping decoded from goodExtractResp. -/
def goodCaptions : JVal := JVal.jobj [(liverKey, JVal.jstr normTxt)]

/-- The mapping decoded from transResp. -/
def transCaptions : JVal := JVal.jobj [(liverKey, JVal.jstr okTxt)]

def nameA : List Char := ("a.docx").toList

def nameB : List Char := ("b.docx").toList

def nameC : List Char := ("c.docx").toList

def nameD : List Char := ("d.docx").toList

/-- A document environment that processes fully successfully. -/
def goodEnv (name : List Char) : DocEnv :=
  ⟨name, some goodPdf, some goodExtractResp, some transResp, some transResp⟩

/-- The final report produced by goodEnv. -/
def goodReport (name : List Char) : FinalReport :=
  ⟨name, naV, naV, naV, naV, goodCaptions, transCaptions, transCaptions⟩

/-- An environment whose structured-extraction backend responds with the
valid JSON number 5. -/
def evilEnv : DocEnv :=
  ⟨nameB, some goodPdf, some (("5").toList), some transResp, some transResp⟩

/-- An environment whose docx-to-PDF conversion fails. -/
def convFailEnv : DocEnv :=
  ⟨nameB, none, some goodExtractResp, some transResp, some transResp⟩

/-- A structured-extraction response whose captions mapping is present but
empty. -/
def emptyCapResp : List Char := ("\x7b\"captions_ru\": \x7b\x7d\x7d").toList

/-- An environment whose extraction response has an empty captions mapping
and whose translation calls succeed. -/
def envC5 : DocEnv :=
  ⟨nameD, some goodPdf, some emptyCapResp, some transResp, some transResp⟩

/-- The report the pipeline produces for envC5. -/
def reportC5 : FinalReport :=
  ⟨nameD, naV, naV, naV, naV, JVal.jobj [], transCaptions, transCaptions⟩

/-- A translation response whose key set differs from the source captions. -/
def spleenResp : List Char := ("\x7b\"spleen\": \"ok\"\x7d").toList

def spleenKey : List Char := ("spleen").toList

/-- An exception text for a failing OCR transport. -/
def errTxt : List Char := ("timeout").toList

/-- A document with a 3-character direct text layer and one page whose OCR
returns the text x. -/
def pdfSmall : Pdf := ⟨("abc").toList, [ApiResult.success (("x").toList)]⟩

/-- A document with a short non-blank direct text layer and one page whose
OCR call yields empty text. -/
def pdfC9 : Pdf := ⟨("ab").toList, [ApiResult.success []]⟩

/-- A document with no direct text and no rasterizable pages. -/
def pdfNoPages : Pdf := ⟨[], []⟩

/-- A document whose direct text is a single blank and whose only OCR call
yields empty text. -/
def pdfBlankDirect : Pdf := ⟨(" ").toList, [ApiResult.success []]⟩

/-- A JSON payload whose content contains the substring json. -/
def payloadJ : List Char := ("\x7b\"a\": \"json\"\x7d").toList

/-- A JSON payload free of the letter j and of backticks. -/
def payloadSafe : List Char := ("\x7b\"a\": 1\x7d").toList

/-! Helper lemmas. -/

/-- The OCR accumulation splits over list append. -/
theorem ocrConcat_append (l r : List ApiResult) :
    ocrConcat (l ++ r) = ocrConcat l ++ ocrConcat r := by
  induction l with
  | nil => simp [ocrConcat]
  | cons p ps ih => simp [ocrConcat, ih, List.append_assoc]

/-- The failure placeholder is never empty. -/
theorem simMark_append_ne_nil (e : List Char) : simMark ++ e ≠ [] :=
  List.append_ne_nil_of_left_ne_nil (by decide) e

/-- If every OCR call of the list yields empty text, the accumulated text is
empty. -/
theorem ocrConcat_eq_nil (ps : List ApiResult)
    (h : ∀ a ∈ ps, ocr_image_with_vision_llm a = []) : ocrConcat ps = [] := by
  induction ps with
  | nil => rfl
  | cons p ps ih =>
    have hp : ocr_image_with_vision_llm p = [] := h p (List.mem_cons_self p ps)
    simp [ocrConcat, hp, ih (fun a ha => h a (List.mem_cons_of_mem p ha))]

/-- Shape of the resolver on the fallback OCR path: direct text below the
threshold and a non-empty page list. -/
theorem resolveText_fallback (pdf : Pdf) (h1 : pdf.directText.length < 50)
    (h2 : pdf.pages ≠ []) :
    resolveText false pdf
      = (some (pdf.directText ++ ocrConcat pdf.pages),
          Ev.rasterize :: ocrEvents pdf.pages.length) := by
  obtain ⟨dt, pages⟩ := pdf
  cases pages with
  | nil => exact absurd rfl h2
  | cons a ps => simp [resolveText, h1]

/-- A list is a leading segment of itself extended by anything. -/
theorem startsW_self_append (pat rest : List Char) :
    startsW pat (pat ++ rest) = true := by
  induction pat with
  | nil => rfl
  | cons p ps ih => simp [startsW, ih]

/-- Once a match is found, the skip counter consumes exactly the matched
segment. -/
theorem pyRepGo_skip (pat rep : List Char) :
    ∀ l rest : List Char, pyRepGo pat rep l.length (l ++ rest) = pyRepGo pat rep 0 rest := by
  intro l
  induction l with
  | nil => intro rest; rfl
  | cons c t ih => intro rest; simp [pyRepGo, ih]

/-- A replace step at an occurrence of the pattern. -/
theorem pyReplace_head_match (pat rep rest : List Char) (h : pat ≠ []) :
    pyReplace pat rep (pat ++ rest) = rep ++ pyReplace pat rep rest := by
  cases pat with
  | nil => exact absurd rfl h
  | cons p ps =>
    have hs := startsW_self_append (p :: ps) rest
    simp only [List.cons_append] at hs
    simp [pyReplace, pyRepGo, hs, pyRepGo_skip]

/-- Replacement passes over a segment whose characters all differ from the
head character of the pattern. -/
theorem pyReplace_avoid (pat rep rest : List Char) (hp : pat ≠ []) :
    ∀ l : List Char, (∀ c ∈ l, pat.head? ≠ some c) →
      pyReplace pat rep (l ++ rest) = l ++ pyReplace pat rep rest := by
  intro l
  induction l with
  | nil => intro _; rfl
  | cons c t ih =>
    intro h
    cases pat with
    | nil => exact absurd rfl hp
    | cons p0 ps =>
      have hc : ¬ (p0 = c) := fun hh => h c (List.mem_cons_self c t) (by simp [hh])
      have ih2 := ih (fun c2 hc2 => h c2 (List.mem_cons_of_mem c hc2))
      simp only [pyReplace] at ih2
      simp [pyReplace, pyRepGo, startsW, hc, ih2]

/-- Stripping the two substrings removes exactly the fencing when the
payload contains neither the letter j nor a backtick. -/
theorem stripJson_fenceWrap (p : List Char)
    (hj : ∀ c ∈ p, c ≠ 'j') (hb : ∀ c ∈ p, c ≠ backtickC) :
    stripJson (fenceWrap p) = p := by
  have hj2 : ∀ c ∈ p, (("json").toList).head? ≠ some c := by
    intro c hc
    have hh : (("json").toList).head? = some 'j' := by decide
    rw [hh]
    intro heq
    exact hj c hc (Option.some.inj heq).symm
  have hb2 : ∀ c ∈ p, (("```").toList).head? ≠ some c := by
    intro c hc
    have hh : (("```").toList).head? = some backtickC := by decide
    rw [hh]
    intro heq
    exact hb c hc (Option.some.inj heq).symm
  have inner :
      pyReplace (("json").toList) [] (fenceWrap p)
        = ("```").toList ++ (p ++ ("```").toList) := by
    show pyReplace (("json").toList) []
        ((("```").toList) ++ ((("json").toList) ++ (p ++ ("```").toList)))
      = ("```").toList ++ (p ++ ("```").toList)
    rw [pyReplace_avoid (("json").toList) [] _ (by decide) (("```").toList) (by decide)]
    rw [pyReplace_head_match (("json").toList) [] _ (by decide)]
    rw [pyReplace_avoid (("json").toList) [] _ (by decide) p hj2]
    rw [show pyReplace (("json").toList) [] (("```").toList) = ("```").toList from by decide]
    simp
  show pyReplace (("```").toList) [] (pyReplace (("json").toList) [] (fenceWrap p)) = p
  rw [inner]
  rw [pyReplace_head_match (("```").toList) [] _ (by decide)]
  rw [pyReplace_avoid (("```").toList) [] _ (by decide) p hb2]
  rw [show pyReplace (("```").toList) [] (("```").toList) = [] from by decide]
  simp

/-! Claim theorems. -/

/-- Claim C1, evaluation at the failing input: in a 3-document batch where
document 2 fails conversion, the output holds exactly the reports of
documents 1 and 3 in that order; but when document 2 instead receives the
valid JSON number 5 as structured-extraction response, the membership check
of line 227 raises an uncaught TypeError and the whole batch aborts, so
document 3 is never processed and nothing is written - the claimed
skip-and-continue policy does not hold for every stage failure. -/
theorem c1_batch_skip_and_crash_eval :
    runBatch false [goodEnv nameA, convFailEnv, goodEnv nameC]
      = Except.ok [goodReport nameA, goodReport nameC]
    ∧ runBatch false [goodEnv nameA, evilEnv, goodEnv nameC]
      = Except.error PyErr.typeError :=
  ⟨rfl, rfl⟩

/-- Claim C2, counterexample: a page whose OCR transport fails contributes
the non-empty failure placeholder to the accumulated text - the caller does
not treat it as no text from this page. -/
theorem c2_counterexample :
    ocrConcat [ApiResult.failure errTxt] = (simMark ++ errTxt) ++ nl2
    ∧ ocrConcat [ApiResult.failure errTxt] ≠ [] :=
  ⟨rfl, by decide⟩

/-- Claim C2, amended: on transport or backend failure the OCR adapter
returns the marked placeholder string instead of raising, but its callers
check only for emptiness; the placeholder is never empty, so a failed page
contributes the placeholder text to the accumulated document text wherever
it occurs - the page is not skipped. -/
theorem c2_amended :
    (∀ e : List Char,
        ocr_image_with_vision_llm (ApiResult.failure e) = simMark ++ e
        ∧ ocr_image_with_vision_llm (ApiResult.failure e) ≠ [])
    ∧ ∀ (l r : List ApiResult) (e : List Char),
        ocrConcat (l ++ ApiResult.failure e :: r)
          = ocrConcat l ++ ((simMark ++ e) ++ nl2) ++ ocrConcat r := by
  constructor
  · intro e
    exact ⟨rfl, simMark_append_ne_nil e⟩
  · intro l r e
    rw [ocrConcat_append]
    have hne := simMark_append_ne_nil e
    simp [ocrConcat, ocr_image_with_vision_llm, hne, List.append_assoc]

/-- Claim C3: without forced OCR, a direct text of length at least 50 is
used as the resolved text, no page is rasterized and no OCR call is made
(the external-call trace of the stage is empty). -/
theorem c3_direct_usable_no_ocr (pdf : Pdf) (h : 50 ≤ pdf.directText.length) :
    resolveText false pdf = (some pdf.directText, []) := by
  simp [resolveText, Nat.not_lt.mpr h]

/-- Claim C3 witness at a concrete 62-character document. -/
theorem c3_witness : resolveText false goodPdf = (some goodPdf.directText, []) :=
  c3_direct_usable_no_ocr goodPdf (by decide)

/-- Claim C4, counterexample: for a document with direct text abc and one
page whose OCR yields x, the resolved text is not the concatenation of the
OCR results - the sub-threshold direct text stays in front of them. -/
theorem c4_counterexample :
    (resolveText false pdfSmall).fst
      = some (pdfSmall.directText ++ ocrConcat pdfSmall.pages)
    ∧ ¬ (resolveText false pdfSmall).fst = some (ocrConcat pdfSmall.pages) :=
  ⟨rfl, by decide⟩

/-- Claim C4, amended: without forced OCR and below the threshold, OCR is
attempted on every rasterized page (one ocrCall event per page index), and
the OCR results, each kept one followed by a blank line, are appended in
page order after the sub-threshold direct text to form the resolved text. -/
theorem c4_amended (pdf : Pdf) (h1 : pdf.directText.length < 50)
    (h2 : pdf.pages ≠ []) :
    resolveText false pdf
      = (some (pdf.directText ++ ocrConcat pdf.pages),
          Ev.rasterize :: ocrEvents pdf.pages.length) :=
  resolveText_fallback pdf h1 h2

/-- Claim C4 amended, witness at the concrete document pdfSmall. -/
theorem c4_amended_witness :
    resolveText false pdfSmall
      = (some (pdfSmall.directText ++ ocrConcat pdfSmall.pages),
          Ev.rasterize :: ocrEvents pdfSmall.pages.length) :=
  c4_amended pdfSmall (by decide) (by decide)

/-- Claim C5, counterexample: a structured-extraction response whose
captions mapping is present but empty is not treated as a parse failure:
the document passes validation, is translated, and its report appears in
the output collection. -/
theorem c5_counterexample :
    runBatch false [envC5] = Except.ok [reportC5]
    ∧ ¬ runBatch false [envC5] = Except.ok [] := by
  refine ⟨rfl, fun h => ?_⟩
  have h2 : (Except.ok [reportC5] : Except PyErr (List FinalReport))
      = Except.ok [] := h
  exact List.cons_ne_nil reportC5 [] (Except.ok.inj h2)

/-- Claim C5, amended: the validation of lines 226-231 skips the document
exactly when the parsed response is missing, falsy, or lacks the
captions_ru key; an empty captions mapping stored under a present key is
accepted and processing continues. -/
theorem c5_amended :
    validateStructured none = Except.ok none
    ∧ ∀ fields : List (List Char × JVal),
        (validateStructured (some (JVal.jobj fields)) = Except.ok none
          ↔ fields = [] ∨ lookupKey fields capKey = none) := by
  refine ⟨rfl, fun fields => ?_⟩
  cases fields with
  | nil => simp [validateStructured, pyTruthy]
  | cons f fs =>
    cases h : lookupKey (f :: fs) capKey with
    | none => simp [validateStructured, pyTruthy, pyContains, h]
    | some v => simp [validateStructured, pyTruthy, pyContains, h]

/-- Claim C6, evaluation at the failing input: for source captions with key
liver, a backend response carrying the single key spleen is parsed and
returned as the translation result with no key-set verification or
reconciliation - the returned key set differs from the input key set. -/
theorem c6_translate_keyset_eval :
    translate_captions goodCaptions (("English").toList) (some spleenResp)
      = some (JVal.jobj [(spleenKey, JVal.jstr okTxt)])
    ∧ jkeys (JVal.jobj [(spleenKey, JVal.jstr okTxt)]) ≠ jkeys goodCaptions :=
  ⟨rfl, by decide⟩

/-- Claim C7, counterexample: the handler removes every occurrence of the
substring json, not only the fencing: the payload mapping a to the string
json is altered before parsing, and the fenced form parses to a different
structure than strict parsing of the payload. -/
theorem c7_counterexample :
    stripJson (fenceWrap payloadJ) ≠ payloadJ
    ∧ parse_llm_json_output (fenceWrap payloadJ)
        = some (JVal.jobj [(aKey, JVal.jstr [])])
    ∧ jsonLoads payloadJ = some (JVal.jobj [(aKey, JVal.jstr (("json").toList))])
    ∧ ¬ parse_llm_json_output (fenceWrap payloadJ) = jsonLoads payloadJ := by
  refine ⟨by decide, rfl, rfl, fun h => ?_⟩
  have h2 := congrArg (fun o => strAt o aKey) h
  exact absurd h2 (by decide)

/-- Claim C7, amended: the handler removes every occurrence of the
substrings json and three-backticks from the whole response and then parses
strictly; fenced and unfenced forms are guaranteed to parse to the same
structure when the payload contains no letter j and no backtick, and a
payload containing either substring can be altered before parsing. -/
theorem c7_amended (p : List Char) (hj : ∀ c ∈ p, c ≠ 'j')
    (hb : ∀ c ∈ p, c ≠ backtickC) :
    stripJson (fenceWrap p) = p
    ∧ parse_llm_json_output (fenceWrap p) = jsonLoads p := by
  have hs := stripJson_fenceWrap p hj hb
  refine ⟨hs, ?_⟩
  show jsonLoads (stripJson (fenceWrap p)) = jsonLoads p
  rw [hs]

/-- Claim C7 amended, witness at a j-free and backtick-free payload. -/
theorem c7_amended_witness :
    stripJson (fenceWrap payloadSafe) = payloadSafe
    ∧ parse_llm_json_output (fenceWrap payloadSafe) = jsonLoads payloadSafe :=
  c7_amended payloadSafe (by decide) (by decide)

/-- Claim C8: the response handler is a pure function, returning an
identical structure when invoked twice on the same raw string, and on the
malformed input not-json it returns the failure indicator None rather than
raising. -/
theorem c8_parse_deterministic_and_nonraising :
    (∀ s : List Char, parse_llm_json_output s = parse_llm_json_output s)
    ∧ parse_llm_json_output (("not json").toList) = none :=
  ⟨fun _ => rfl, rfl⟩

/-- Claim C9, counterexample: in the fallback path, a document with the
non-blank sub-threshold direct text ab whose only OCR call yields empty
text is not skipped before structured extraction - the direct text is kept
as the resolved text. -/
theorem c9_counterexample :
    textStage false pdfC9 = some (("ab").toList)
    ∧ ¬ textStage false pdfC9 = none :=
  ⟨rfl, by decide⟩

/-- Claim C9, amended: a document is skipped before structured extraction
when no page images can be produced or every OCR call yields empty text -
unconditionally in the forced path, and in the fallback path only when the
sub-threshold direct text is blank as well, since that text remains in the
accumulated result. -/
theorem c9_amended (pdf : Pdf) :
    ((pdf.pages = [] ∨ ∀ a ∈ pdf.pages, ocr_image_with_vision_llm a = []) →
        textStage true pdf = none)
    ∧ (pdf.directText.length < 50 → pyBlank pdf.directText = true →
        (pdf.pages = [] ∨ ∀ a ∈ pdf.pages, ocr_image_with_vision_llm a = []) →
        textStage false pdf = none) := by
  obtain ⟨dt, pages⟩ := pdf
  constructor
  · intro hor
    cases pages with
    | nil => rfl
    | cons a ps =>
      rcases hor with h | h
      · exact absurd h (List.cons_ne_nil a ps)
      · have hcc : ocrConcat (a :: ps) = [] := ocrConcat_eq_nil _ h
        simp [textStage, resolveText, hcc, pyBlank]
  · intro h1 h2 hor
    cases pages with
    | nil => simp [textStage, resolveText, h1]
    | cons a ps =>
      rcases hor with h | h
      · exact absurd h (List.cons_ne_nil a ps)
      · have hcc : ocrConcat (a :: ps) = [] := ocrConcat_eq_nil _ h
        simp [textStage, resolveText, h1, hcc, h2]

/-- Claim C9 amended, witness: a pageless document in the forced path and a
blank-direct-text document with one empty OCR result in the fallback path
are both skipped. -/
theorem c9_amended_witness :
    textStage true pdfNoPages = none ∧ textStage false pdfBlankDirect = none :=
  ⟨(c9_amended pdfNoPages).1 (Or.inl rfl),
   (c9_amended pdfBlankDirect).2 (by decide) (by decide) (Or.inr (by decide))⟩

/-- Claim C10: in the non-forced fallback path, whenever a resolved text is
passed on to structured extraction it is the sub-threshold direct text
followed by the concatenated OCR page texts, so the direct text is a
leading segment of the resolved text. -/
theorem c10_direct_text_retained (pdf : Pdf) (t : List Char)
    (h1 : pdf.directText.length < 50) (h2 : pdf.pages ≠ [])
    (h3 : textStage false pdf = some t) :
    t = pdf.directText ++ ocrConcat pdf.pages
    ∧ t.take pdf.directText.length = pdf.directText := by
  have hr := resolveText_fallback pdf h1 h2
  have hf : (resolveText false pdf).fst
      = some (pdf.directText ++ ocrConcat pdf.pages) := by rw [hr]
  have h4 : (if pyBlank (pdf.directText ++ ocrConcat pdf.pages) then none
        else some (pdf.directText ++ ocrConcat pdf.pages)) = some t := by
    rw [← h3]
    simp only [textStage, hf]
  cases hpb : pyBlank (pdf.directText ++ ocrConcat pdf.pages) with
  | true => simp [hpb] at h4
  | false =>
    simp [hpb] at h4
    refine ⟨h4.symm, ?_⟩
    rw [← h4]
    exact List.take_left pdf.directText (ocrConcat pdf.pages)

/-- Claim C10 witness at the concrete document pdfSmall. -/
theorem c10_witness :
    pdfSmall.directText ++ ocrConcat pdfSmall.pages
        = pdfSmall.directText ++ ocrConcat pdfSmall.pages
    ∧ (pdfSmall.directText ++ ocrConcat pdfSmall.pages).take
        pdfSmall.directText.length = pdfSmall.directText :=
  c10_direct_text_retained pdfSmall (pdfSmall.directText ++ ocrConcat pdfSmall.pages)
    (by decide) (by decide) (by decide)

end MedReport
